import Mathlib

/-!
Verification of the core logic of the kodi-nowplaying-multi dashboard
(`kodi-nowplaying.py`, `episode_nowplaying.py`): the artwork resolver's
art-map merging and download loops, the playback-state poller
(`poll_playback`), and the browser-side sync controller
(`checkPlaybackChange`).

Python dictionaries are embedded as association lists with first-match
lookup and replace-or-append insertion; `{**a, **b}` style merges are
embedded as a left fold of insertions.  RPC and HTTP effects are supplied
as explicit oracle inputs; the wall clock is an explicit `Int` argument
(Python uses a float, truncated with `int(...)` where it is embedded in a
string; only whole-second comparisons occur in the code under study).
-/

/-- Association-list embedding of a Python `dict` with string keys and
string values (insertion order preserved, as in Python 3.7+). -/
abbrev Dict := List (String × String)

/-- `d.get(k)`: first-match lookup. -/
def dlookup : Dict → String → Option String
  | [], _ => none
  | (k', v) :: rest, k => if k' = k then some v else dlookup rest k

/-- `d[k] = v`: replace the first binding of `k` in place, else append. -/
def dinsert : Dict → String → String → Dict
  | [], k, v => [(k, v)]
  | (k', v') :: rest, k, v =>
      if k' = k then (k, v) :: rest else (k', v') :: dinsert rest k v

/-- `{**a, **b}`: fold the bindings of `b` into `a`, later bindings win. -/
def dmerge (a b : Dict) : Dict :=
  b.foldl (fun acc kv => dinsert acc kv.1 kv.2) a

/-- The key list of a dict. -/
def dkeys (d : Dict) : List String := d.map (fun kv => kv.1)

theorem dlookup_dinsert_self (d : Dict) (k v : String) :
    dlookup (dinsert d k v) k = some v := by
  induction d with
  | nil => simp [dinsert, dlookup]
  | cons p rest ih =>
    obtain ⟨k', v'⟩ := p
    by_cases h : k' = k
    · simp [dinsert, h, dlookup]
    · simp [dinsert, h, dlookup, ih]

@[simp] theorem dkeys_nil : dkeys [] = [] := rfl

@[simp] theorem dkeys_cons (a b : String) (rest : Dict) :
    dkeys ((a, b) :: rest) = a :: dkeys rest := rfl

theorem dlookup_dinsert_ne (d : Dict) (k v k' : String) (h : k' ≠ k) :
    dlookup (dinsert d k v) k' = dlookup d k' := by
  have h' : ¬ k = k' := fun hh => h hh.symm
  induction d with
  | nil => simp [dinsert, dlookup, h']
  | cons p rest ih =>
    obtain ⟨a, b⟩ := p
    by_cases ha : a = k
    · subst ha
      simp [dinsert, dlookup, h']
    · simp only [dinsert, if_neg ha, dlookup]
      by_cases hb : a = k'
      · simp [hb]
      · simp [hb, ih]

theorem dlookup_eq_none_of_not_mem (d : Dict) (k : String) (h : k ∉ dkeys d) :
    dlookup d k = none := by
  induction d with
  | nil => simp [dlookup]
  | cons p rest ih =>
    obtain ⟨a, b⟩ := p
    rw [dkeys_cons, List.mem_cons] at h
    push_neg at h
    rw [dlookup, if_neg (fun hh => h.1 hh.symm)]
    exact ih h.2

theorem dlookup_mem {d : Dict} {k v : String} (h : dlookup d k = some v) :
    (k, v) ∈ d := by
  induction d with
  | nil => simp [dlookup] at h
  | cons p rest ih =>
    obtain ⟨a, b⟩ := p
    by_cases ha : a = k
    · subst ha
      rw [dlookup, if_pos rfl] at h
      injection h with hbv
      subst hbv
      exact List.mem_cons_self _ _
    · rw [dlookup, if_neg ha] at h
      exact List.mem_cons_of_mem _ (ih h)

theorem dkeys_dinsert (d : Dict) (k v : String) :
    dkeys (dinsert d k v) = if k ∈ dkeys d then dkeys d else dkeys d ++ [k] := by
  induction d with
  | nil => simp [dinsert, dkeys]
  | cons p rest ih =>
    obtain ⟨a, b⟩ := p
    by_cases ha : a = k
    · subst ha
      simp [dinsert, List.mem_cons]
    · have ha' : ¬ k = a := fun hh => ha hh.symm
      simp only [dinsert, if_neg ha, dkeys_cons, List.mem_cons, ih]
      by_cases hm : k ∈ dkeys rest
      · simp [hm, ha']
      · simp [hm, ha']

theorem nodup_dkeys_dinsert {d : Dict} (h : (dkeys d).Nodup) (k v : String) :
    (dkeys (dinsert d k v)).Nodup := by
  rw [dkeys_dinsert]
  by_cases hm : k ∈ dkeys d
  · simpa [hm] using h
  · simp only [hm, if_false]
    simpa [List.nodup_append, hm] using h

theorem foldl_preserves {β : Type} (P : Dict → Prop) (f : Dict → β → Dict)
    (hf : ∀ d x, P d → P (f d x)) :
    ∀ (l : List β) (d : Dict), P d → P (l.foldl f d) := by
  intro l
  induction l with
  | nil => intro d hd; simpa using hd
  | cons x xs ih => intro d hd; exact ih (f d x) (hf d x hd)

theorem dlookup_dmerge (a b : Dict) (hb : (dkeys b).Nodup) (k : String) :
    dlookup (dmerge a b) k =
      ((dlookup b k).orElse fun _ => dlookup a k) := by
  induction b generalizing a with
  | nil => simp [dmerge, dlookup]
  | cons p rest ih =>
    obtain ⟨k', v'⟩ := p
    simp only [dkeys, List.map_cons, List.nodup_cons] at hb
    have hrest : (dkeys rest).Nodup := hb.2
    have hnotin : k' ∉ dkeys rest := by simpa [dkeys] using hb.1
    show dlookup (dmerge (dinsert a k' v') rest) k = _
    rw [ih (dinsert a k' v') hrest]
    by_cases hk : k' = k
    · subst hk
      rw [dlookup_eq_none_of_not_mem rest k' hnotin]
      simp [dlookup, dlookup_dinsert_self]
    · rw [dlookup_dinsert_ne a k' v' k (fun hh => hk hh.symm)]
      simp [dlookup, hk]

/-!
## Artwork resolver: art-map key normalization and merge
Embeds `prepare_and_download_art` lines 1049-1085 of `kodi-nowplaying.py`.
-/

/-- Promotion of `item["thumbnail"]` to `art_map["poster"]` when the art
map has no truthy poster (lines 1050-1051).  `thumb` is the item's
`thumbnail` field, `none` when the key is missing. -/
def promotePoster (art : Dict) (thumb : Option String) : Dict :=
  match thumb with
  | some t =>
      if t ≠ "" ∧ (dlookup art "poster" = none ∨ dlookup art "poster" = some "") then
        dinsert art "poster" t
      else art
  | none => art

/-- The `tvshow.`-prefixed art keys, stripped (lines 1054-1059).
Python's `str.replace` removes every occurrence, as `String.replace` does. -/
def tvshowArtMap (art : Dict) : Dict :=
  art.foldl
    (fun acc kv =>
      if kv.1.startsWith "tvshow." then
        dinsert acc (kv.1.replace "tvshow." "") kv.2
      else acc) []

/-- The `album.`/`artist.`/`albumartist.`-prefixed art keys, stripped,
with `album.thumb` renamed to `thumbnail` and the redundant re-binding of
`front`/`back` (lines 1061-1082). -/
def musicArtMap (art : Dict) : Dict :=
  art.foldl
    (fun acc kv =>
      if kv.1.startsWith "album." then
        let ck0 := kv.1.replace "album." ""
        let ck := if ck0 = "thumb" then "thumbnail" else ck0
        let acc1 := dinsert acc ck kv.2
        if ck = "front" then dinsert acc1 "front" kv.2
        else if ck = "back" then dinsert acc1 "back" kv.2
        else acc1
      else if kv.1.startsWith "artist." then
        dinsert acc (kv.1.replace "artist." "") kv.2
      else if kv.1.startsWith "albumartist." then
        dinsert acc (kv.1.replace "albumartist." "") kv.2
      else acc) []

/-- `art_map = {**art_map, **tvshow_art_map, **music_art_map}`
(line 1085): music keys win over TV-show keys, which win over the base
keys. -/
def mergeArtMaps (art : Dict) : Dict :=
  dmerge (dmerge art (tvshowArtMap art)) (musicArtMap art)

theorem nodup_dkeys_tvshowArtMap (art : Dict) :
    (dkeys (tvshowArtMap art)).Nodup := by
  unfold tvshowArtMap
  refine foldl_preserves (fun d => (dkeys d).Nodup) _ ?_ art [] (by simp)
  intro d kv hd
  by_cases h : kv.1.startsWith "tvshow."
  · simpa [h] using nodup_dkeys_dinsert hd _ _
  · simpa [h] using hd

theorem nodup_dkeys_musicArtMap (art : Dict) :
    (dkeys (musicArtMap art)).Nodup := by
  unfold musicArtMap
  refine foldl_preserves (fun d => (dkeys d).Nodup) _ ?_ art [] (by simp)
  intro d kv hd
  by_cases h1 : kv.1.startsWith "album."
  · simp only [h1, if_pos]
    have h2 := nodup_dkeys_dinsert hd
      (if kv.1.replace "album." "" = "thumb" then "thumbnail"
       else kv.1.replace "album." "") kv.2
    by_cases hf : (if kv.1.replace "album." "" = "thumb" then "thumbnail"
        else kv.1.replace "album." "") = "front"
    · simpa [hf] using nodup_dkeys_dinsert (by simpa [hf] using h2) "front" kv.2
    · by_cases hb : (if kv.1.replace "album." "" = "thumb" then "thumbnail"
          else kv.1.replace "album." "") = "back"
      · simpa [hf, hb] using nodup_dkeys_dinsert (by simpa [hb] using h2) "back" kv.2
      · simpa [hf, hb] using h2
  · by_cases h2 : kv.1.startsWith "artist."
    · simpa [h1, h2] using nodup_dkeys_dinsert hd _ _
    · by_cases h3 : kv.1.startsWith "albumartist."
      · simpa [h1, h2, h3] using nodup_dkeys_dinsert hd _ _
      · simpa [h1, h2, h3] using hd

/-- C2.  The merged art map binds every key to the value from the
highest-precedence prefix family that defines it: music-derived keys,
then TV-show-derived keys, then the original base keys.  A key defined by
only one family keeps that family's value, because `Option.orElse` falls
through on `none`. -/
theorem artMap_merge_precedence (art : Dict) (k : String) :
    dlookup (mergeArtMaps art) k =
      ((dlookup (musicArtMap art) k).orElse fun _ =>
        ((dlookup (tvshowArtMap art) k).orElse fun _ => dlookup art k)) := by
  unfold mergeArtMaps
  rw [dlookup_dmerge _ _ (nodup_dkeys_musicArtMap art) k,
      dlookup_dmerge _ _ (nodup_dkeys_tvshowArtMap art) k]

/-!
## Language normalization
Embeds the fixed alias table of `poll_playback` lines 944-958 of
`kodi-nowplaying.py`.
-/

/-- The `language_normalization` dict literal (lines 944-955). -/
def language_normalization : Dict :=
  [("GER", "DEU"), ("ENG", "ENG"), ("FRE", "FRA"), ("SPA", "SPA"),
   ("ITA", "ITA"), ("POR", "POR"), ("RUS", "RUS"), ("JPN", "JPN"),
   ("KOR", "KOR"), ("CHI", "CHI")]

/-- `language_normalization.get(lang, lang)` (lines 957-958). -/
def normalizeLang (s : String) : String :=
  (dlookup language_normalization s).getD s

/-- C9.  Every alias in the fixed table maps to its canonical 3-letter
form; strings outside the table are left unchanged; and normalization is
idempotent. -/
theorem language_normalization_canonical_idempotent :
    (∀ p ∈ language_normalization, normalizeLang p.1 = p.2)
    ∧ (∀ s, dlookup language_normalization s = none → normalizeLang s = s)
    ∧ (∀ s, normalizeLang (normalizeLang s) = normalizeLang s) := by
  refine ⟨by decide, ?_, ?_⟩
  · intro s h
    simp [normalizeLang, h]
  · intro s
    cases h : dlookup language_normalization s with
    | none => simp [normalizeLang, h]
    | some v =>
      have hv : (s, v) ∈ language_normalization := dlookup_mem h
      have hvals : ∀ p ∈ language_normalization, normalizeLang p.2 = p.2 := by decide
      have hfix : normalizeLang v = v := hvals (s, v) hv
      have hs : normalizeLang s = v := by rw [normalizeLang, h, Option.getD_some]
      rw [hs]
      exact hfix

/-- Witness for C9 at concrete inputs. -/
theorem language_normalization_canonical_idempotent_witness :
    normalizeLang "GER" = "DEU" ∧ normalizeLang "XYZ" = "XYZ"
    ∧ normalizeLang (normalizeLang "FRE") = normalizeLang "FRE" :=
  ⟨language_normalization_canonical_idempotent.1 ("GER", "DEU") (by decide),
   language_normalization_canonical_idempotent.2.1 "XYZ" (by decide),
   language_normalization_canonical_idempotent.2.2 "FRE"⟩

/-!
## Playback state poller
Embeds `poll_playback` (lines 845-1001) and the failure contract of
`kodi_rpc` (lines 1003-1036) of `kodi-nowplaying.py`.

`kodi_rpc` wraps every call in `try`/`except` and returns `None` on any
transport, timeout or HTTP error (`raise_for_status`), so each RPC is an
oracle input of `Option` type: `none` stands uniformly for a failed call
or a response without a truthy payload (Python tests
`response and response.get("result")`, so `result` being `None`, absent
or an empty list all land in the same branch as a failed call).  The
function also returns the ordered list of Kodi RPC method names it
invoked, which is exactly the list of `kodi_rpc` call sites executed.
-/

/-- `label[:3].upper()` (lines 940-941): the first three characters,
uppercased.  Python slices by code point and `str.upper` maps each
character; `Char.toUpper` matches it on the ASCII labels involved. -/
def sliceUpper3 (s : String) : String :=
  String.mk ((s.data.take 3).map Char.toUpper)

/-- `EPISODE_CHECK_INTERVAL` (line 85). -/
def EPISODE_CHECK_INTERVAL : Int := 10

/-- The module-global poller state (`last_known_episode`,
`last_check_time`, lines 83-84). -/
structure PollerState where
  last_known_episode : Option String
  last_check_time : Int
deriving DecidableEq, Repr

/-- The fields of `Player.GetItem`'s `result.item` that `poll_playback`
reads: `type`, `id` (absent when Kodi has no database id) and `title`
(absent when the payload lacks it). -/
structure KodiItem where
  itemType : String
  dbId : Option Int
  title : Option String
deriving DecidableEq, Repr

/-- One poll's oracle inputs: the responses of the up-to-five `kodi_rpc`
calls, and the current wall clock (`time.time()`). -/
structure PollInputs where
  players : Option (List Int)
  players2 : Option (List Int)
  getItem : Option KodiItem
  speed : Option Int
  langs : Option (String × String)
  now : Int
deriving DecidableEq, Repr

/-- The JSON body `poll_playback` returns; `none` fields are keys absent
from that particular `jsonify` call. -/
structure PollResponse where
  playing : Bool
  paused : Option Bool
  item_id : Option String
  item_type : Option String
  current_audio_lang : Option String
  current_subtitle_lang : Option String
  error : Bool
deriving DecidableEq, Repr

/-- Identity derivation from the current item (lines 872-887).  Python's
`item_id` truthiness makes `id = 0` fall through to the title fallback,
and `current_item.get('title', 'unknown')` defaults only when the key is
missing. -/
def deriveItemId (it : KodiItem) : String :=
  match it.dbId with
  | some n =>
      if it.itemType = "song" ∧ n ≠ 0 then "song_" ++ toString n
      else if it.itemType = "episode" ∧ n ≠ 0 then "episode_" ++ toString n
      else if it.itemType = "movie" ∧ n ≠ 0 then "movie_" ++ toString n
      else "other_" ++ (it.title.getD "unknown")
  | none => "other_" ++ (it.title.getD "unknown")

/-- Truthiness of an active-players RPC result: a successful response
whose `result` list is non-empty. -/
def hasActive : Option (List Int) → Bool
  | some (_ :: _) => true
  | _ => false

/-- The throttle gate of line 858: re-derive the identity when at least
`EPISODE_CHECK_INTERVAL` seconds have elapsed since the last attempt, or
when no identity is stored yet. -/
def throttleOpen (st : PollerState) (inp : PollInputs) : Bool :=
  decide (inp.now - st.last_check_time ≥ EPISODE_CHECK_INTERVAL)
    || st.last_known_episode.isNone

/-- The `{"playing": False}` body (line 997). -/
def notPlayingResponse : PollResponse :=
  { playing := false, paused := none, item_id := none, item_type := none,
    current_audio_lang := none, current_subtitle_lang := none, error := false }

/-- The synthetic change-signal body (lines 894-899);
`item_changed_{int(current_time)}`. -/
def itemChangedResponse (now : Int) : PollResponse :=
  { playing := true, paused := none,
    item_id := some ("item_changed_" ++ toString now),
    item_type := some "item_change",
    current_audio_lang := none, current_subtitle_lang := none,
    error := false }

/-- The steady playing body (lines 973-991). -/
def steadyResponse (isPaused : Bool) (eid audio sub : String) : PollResponse :=
  { playing := true, paused := some isPaused, item_id := some eid,
    item_type := some "episode", current_audio_lang := some audio,
    current_subtitle_lang := some sub, error := false }

/-- `if last_known_episode:` (line 971): a stored identity is reported
only when truthy, else the `episode_unknown` sentinel. -/
def reportedItemId : Option String → String
  | some e => if e = "" then "episode_unknown" else e
  | none => "episode_unknown"

/-- The body of the throttled identity re-check (lines 861-915), entered
with the gate already open: updates `last_check_time`, re-queries the
active players, fetches the current item, and either swallows the result
(transient failure), stores a first identity, confirms the stored one, or
flips it and produces the synthetic change response. -/
def derivationCore (st : PollerState) (inp : PollInputs) :
    PollerState × Option PollResponse × List String :=
  let st1 : PollerState := { st with last_check_time := inp.now }
  match inp.players2 with
  | some (_ :: _) =>
      (match inp.getItem with
       | some it =>
           let cid := deriveItemId it
           (match st.last_known_episode with
            | some prev =>
                if cid ≠ prev then
                  ({ st1 with last_known_episode := some cid },
                   some (itemChangedResponse inp.now),
                   ["Player.GetActivePlayers", "Player.GetItem"])
                else (st1, none, ["Player.GetActivePlayers", "Player.GetItem"])
            | none =>
                ({ st1 with last_known_episode := some cid }, none,
                 ["Player.GetActivePlayers", "Player.GetItem"]))
       | none => (st1, none, ["Player.GetActivePlayers", "Player.GetItem"]))
  | _ => (st1, none, ["Player.GetActivePlayers"])

/-- The throttled identity phase: runs `derivationCore` only when the
gate of line 858 is open. -/
def derivationPhase (st : PollerState) (inp : PollInputs) :
    PollerState × Option PollResponse × List String :=
  if throttleOpen st inp then derivationCore st inp else (st, none, [])

/-- `poll_playback` (lines 845-1001): returns the new module state, the
JSON body, and the ordered RPC trace.  When the initial active-players
query fails or returns an empty list, the state is reset
(`last_known_episode = None`, `last_check_time = 0`) and the idle body is
returned — a failed RPC is indistinguishable from idleness here.  The
`except` branch of line 998 is unreachable in this embedding because
`kodi_rpc` already absorbs every exception. -/
def poll_playback (st : PollerState) (inp : PollInputs) :
    PollerState × PollResponse × List String :=
  match inp.players with
  | some (_ :: _) =>
      (match derivationPhase st inp with
       | (st1, some resp, tr) => (st1, resp, "Player.GetActivePlayers" :: tr)
       | (st1, none, tr) =>
           let isPaused : Bool := inp.speed.getD 0 == 0
           let raw := inp.langs.getD ("", "")
           let audio := normalizeLang (sliceUpper3 raw.1)
           let sub := normalizeLang (sliceUpper3 raw.2)
           (st1,
            steadyResponse isPaused (reportedItemId st1.last_known_episode) audio sub,
            "Player.GetActivePlayers" ::
              (tr ++ ["Player.GetProperties", "XBMC.GetInfoLabels"])))
  | _ =>
      (⟨none, 0⟩, notPlayingResponse, ["Player.GetActivePlayers"])

theorem throttleOpen_iff (st : PollerState) (inp : PollInputs) :
    throttleOpen st inp = true ↔
      (inp.now - st.last_check_time ≥ EPISODE_CHECK_INTERVAL
       ∨ st.last_known_episode = none) := by
  simp [throttleOpen, Option.isNone_iff_eq_none]

theorem hasActive_iff (o : Option (List Int)) :
    hasActive o = true ↔ ∃ a l, o = some (a :: l) := by
  cases o with
  | none => simp [hasActive]
  | some l => cases l <;> simp [hasActive]

theorem deriveItemId_ne_empty (it : KodiItem) : deriveItemId it ≠ "" := by
  have hlen : ∀ (p t : String), p.data ≠ [] → (p ++ t) ≠ "" := by
    intro p t hp h
    have : (p ++ t).data = [] := by rw [h]
    rw [String.data_append] at this
    exact hp (List.append_eq_nil.mp this).1
  unfold deriveItemId
  cases it.dbId with
  | none => exact hlen _ _ (by decide)
  | some n =>
    by_cases h1 : it.itemType = "song" ∧ n ≠ 0
    · simpa [h1] using hlen "song_" (toString n) (by decide)
    · by_cases h2 : it.itemType = "episode" ∧ n ≠ 0
      · simpa [h1, h2] using hlen "episode_" (toString n) (by decide)
      · by_cases h3 : it.itemType = "movie" ∧ n ≠ 0
        · simpa [h1, h2, h3] using hlen "movie_" (toString n) (by decide)
        · simpa [h1, h2, h3] using hlen "other_" _ (by decide)

theorem derivationPhase_closed (st : PollerState) (inp : PollInputs)
    (h : throttleOpen st inp = false) :
    derivationPhase st inp = (st, none, []) := by
  simp [derivationPhase, h]

theorem derivationPhase_open (st : PollerState) (inp : PollInputs)
    (h : throttleOpen st inp = true) :
    derivationPhase st inp = derivationCore st inp := by
  simp [derivationPhase, h]

/-- C5.  While a player is active, the extra identity-derivation round
trip (the inner `Player.GetActivePlayers` re-query, line 863, making the
trace contain that method twice) runs exactly when at least
`EPISODE_CHECK_INTERVAL` seconds have elapsed since the last derivation
attempt or no identity is stored; `Player.GetItem` is additionally called
exactly when that gate is open and the re-query found a player; and on a
throttled poll the state is untouched and the previously stored identity
is reported. -/
theorem pollPlayback_throttles_derivation (st : PollerState) (inp : PollInputs)
    (hp : hasActive inp.players = true) :
    (((poll_playback st inp).2.2.count "Player.GetActivePlayers" = 2) ↔
      (inp.now - st.last_check_time ≥ EPISODE_CHECK_INTERVAL
       ∨ st.last_known_episode = none))
    ∧ (("Player.GetItem" ∈ (poll_playback st inp).2.2) ↔
        ((inp.now - st.last_check_time ≥ EPISODE_CHECK_INTERVAL
          ∨ st.last_known_episode = none)
         ∧ hasActive inp.players2 = true))
    ∧ ((¬ (inp.now - st.last_check_time ≥ EPISODE_CHECK_INTERVAL
           ∨ st.last_known_episode = none)) →
        st.last_known_episode ≠ some "" →
        (poll_playback st inp).1 = st
        ∧ (poll_playback st inp).2.1.item_id = st.last_known_episode) := by
  obtain ⟨a, l, hpl⟩ := (hasActive_iff _).mp hp
  by_cases ho : throttleOpen st inp = true
  · have hR : inp.now - st.last_check_time ≥ EPISODE_CHECK_INTERVAL
        ∨ st.last_known_episode = none := (throttleOpen_iff st inp).mp ho
    have hop := derivationPhase_open st inp ho
    rcases hp2 : inp.players2 with _ | l2
    · have htr : (poll_playback st inp).2.2
          = ["Player.GetActivePlayers", "Player.GetActivePlayers",
             "Player.GetProperties", "XBMC.GetInfoLabels"] := by
        simp [poll_playback, hpl, hop, derivationCore, hp2]
      refine ⟨?_, ?_, fun hn _ => absurd hR hn⟩
      · rw [htr]; exact iff_of_true (by decide) hR
      · rw [htr]
        exact iff_of_false (by decide) (fun h => by simp [hasActive, hp2] at h)
    · rcases l2 with _ | ⟨b, l2'⟩
      · have htr : (poll_playback st inp).2.2
            = ["Player.GetActivePlayers", "Player.GetActivePlayers",
               "Player.GetProperties", "XBMC.GetInfoLabels"] := by
          simp [poll_playback, hpl, hop, derivationCore, hp2]
        refine ⟨?_, ?_, fun hn _ => absurd hR hn⟩
        · rw [htr]; exact iff_of_true (by decide) hR
        · rw [htr]
          exact iff_of_false (by decide) (fun h => by simp [hasActive, hp2] at h)
      · rcases hgi : inp.getItem with _ | it
        · have htr : (poll_playback st inp).2.2
              = ["Player.GetActivePlayers", "Player.GetActivePlayers",
                 "Player.GetItem", "Player.GetProperties", "XBMC.GetInfoLabels"] := by
            simp [poll_playback, hpl, hop, derivationCore, hp2, hgi]
          refine ⟨?_, ?_, fun hn _ => absurd hR hn⟩
          · rw [htr]; exact iff_of_true (by decide) hR
          · rw [htr]; exact iff_of_true (by decide) ⟨hR, by simp [hasActive]⟩
        · rcases hle : st.last_known_episode with _ | prev
          all_goals rw [hle] at hR
          · have htr : (poll_playback st inp).2.2
                = ["Player.GetActivePlayers", "Player.GetActivePlayers",
                   "Player.GetItem", "Player.GetProperties", "XBMC.GetInfoLabels"] := by
              simp [poll_playback, hpl, hop, derivationCore, hp2, hgi, hle]
            refine ⟨?_, ?_, fun hn _ => absurd hR hn⟩
            · rw [htr]; exact iff_of_true (by decide) hR
            · rw [htr]; exact iff_of_true (by decide) ⟨hR, by simp [hasActive]⟩
          · by_cases hne : deriveItemId it ≠ prev
            · have htr : (poll_playback st inp).2.2
                  = ["Player.GetActivePlayers", "Player.GetActivePlayers",
                     "Player.GetItem"] := by
                simp [poll_playback, hpl, hop, derivationCore, hp2, hgi, hle, hne]
              refine ⟨?_, ?_, fun hn _ => absurd hR hn⟩
              · rw [htr]; exact iff_of_true (by decide) hR
              · rw [htr]; exact iff_of_true (by decide) ⟨hR, by simp [hasActive]⟩
            · have htr : (poll_playback st inp).2.2
                  = ["Player.GetActivePlayers", "Player.GetActivePlayers",
                     "Player.GetItem", "Player.GetProperties", "XBMC.GetInfoLabels"] := by
                simp [poll_playback, hpl, hop, derivationCore, hp2, hgi, hle, hne]
              refine ⟨?_, ?_, fun hn _ => absurd hR hn⟩
              · rw [htr]; exact iff_of_true (by decide) hR
              · rw [htr]; exact iff_of_true (by decide) ⟨hR, by simp [hasActive]⟩
  · have ho' : throttleOpen st inp = false := by
      cases h : throttleOpen st inp
      · rfl
      · exact absurd h ho
    have hnR : ¬ (inp.now - st.last_check_time ≥ EPISODE_CHECK_INTERVAL
        ∨ st.last_known_episode = none) := by
      rw [← throttleOpen_iff]; simp [ho']
    have hcl := derivationPhase_closed st inp ho'
    have htr : (poll_playback st inp).2.2
        = ["Player.GetActivePlayers", "Player.GetProperties",
           "XBMC.GetInfoLabels"] := by
      simp [poll_playback, hpl, hcl]
    have hst : (poll_playback st inp).1 = st := by
      simp [poll_playback, hpl, hcl]
    refine ⟨?_, ?_, fun _ hwf => ⟨hst, ?_⟩⟩
    · rw [htr]; exact iff_of_false (by decide) hnR
    · rw [htr]
      exact iff_of_false (by decide) (fun h => hnR h.1)
    · rcases hle : st.last_known_episode with _ | e
      · exact absurd (Or.inr hle) hnR
      · have he : e ≠ "" := by
          intro hh; subst hh; exact hwf hle
        simp [poll_playback, hpl, hcl, steadyResponse, reportedItemId, hle, he]

/-- Concrete state for the C5 witness: identity stored, last check at 0. -/
def c5St : PollerState := ⟨some "episode_7", 0⟩

/-- Concrete inputs for the C5 witness: an active player polled 5 seconds
after the last derivation attempt (inside the throttle window). -/
def c5Inp : PollInputs :=
  ⟨some [1], some [1], some ⟨"episode", some 9, none⟩, some 1, none, 5⟩

/-- Witness for C5: a throttled poll leaves the state untouched and
reports the stored identity. -/
theorem pollPlayback_throttles_derivation_witness :
    (poll_playback c5St c5Inp).1 = c5St
    ∧ (poll_playback c5St c5Inp).2.1.item_id = c5St.last_known_episode :=
  (pollPlayback_throttles_derivation c5St c5Inp (by decide)).2.2
    (by decide) (by decide)

/-- C1.  While a player is active: the stored identity changes only when
`Player.GetItem` succeeded and derived an identity differing from the
stored one; a failed `Player.GetItem` never changes the stored identity;
a confirmed different identity produces the synthetic
`item_changed_<timestamp>` response exactly once, storing the new real
identity; and the next poll for the same (or transiently unavailable)
item reports that new real identity with the ordinary `episode` tag, so
the sentinel appears in exactly one response per change. -/
theorem pollPlayback_identity_stability :
    (∀ st inp, hasActive inp.players = true →
      (poll_playback st inp).1.last_known_episode ≠ st.last_known_episode →
      ∃ it, inp.getItem = some it
        ∧ (poll_playback st inp).1.last_known_episode
            = some (deriveItemId it)
        ∧ st.last_known_episode ≠ some (deriveItemId it))
    ∧ (∀ st inp, hasActive inp.players = true → inp.getItem = none →
        (poll_playback st inp).1.last_known_episode = st.last_known_episode)
    ∧ (∀ st inp it prev, hasActive inp.players = true →
        hasActive inp.players2 = true →
        inp.getItem = some it → st.last_known_episode = some prev →
        inp.now - st.last_check_time ≥ EPISODE_CHECK_INTERVAL →
        deriveItemId it ≠ prev →
        (poll_playback st inp).2.1.item_id
            = some ("item_changed_" ++ toString inp.now)
        ∧ (poll_playback st inp).2.1.item_type = some "item_change"
        ∧ (poll_playback st inp).1.last_known_episode
            = some (deriveItemId it))
    ∧ (∀ st inp inp' it prev, hasActive inp.players = true →
        hasActive inp.players2 = true →
        inp.getItem = some it → st.last_known_episode = some prev →
        inp.now - st.last_check_time ≥ EPISODE_CHECK_INTERVAL →
        deriveItemId it ≠ prev →
        hasActive inp'.players = true →
        (∀ it', inp'.getItem = some it' → deriveItemId it' = deriveItemId it) →
        (poll_playback (poll_playback st inp).1 inp').2.1.item_id
            = some (deriveItemId it)
        ∧ (poll_playback (poll_playback st inp).1 inp').2.1.item_type
            = some "episode") := by
  have stateChange : ∀ st inp it prev, hasActive inp.players = true →
      hasActive inp.players2 = true →
      inp.getItem = some it → st.last_known_episode = some prev →
      inp.now - st.last_check_time ≥ EPISODE_CHECK_INTERVAL →
      deriveItemId it ≠ prev →
      poll_playback st inp
        = (⟨some (deriveItemId it), inp.now⟩, itemChangedResponse inp.now,
           ["Player.GetActivePlayers", "Player.GetActivePlayers",
            "Player.GetItem"]) := by
    intro st inp it prev hp hp2 hgi hle hel hne
    obtain ⟨a, l, hpl⟩ := (hasActive_iff _).mp hp
    obtain ⟨b, l2, hpl2⟩ := (hasActive_iff _).mp hp2
    have ho : throttleOpen st inp = true := by
      rw [throttleOpen_iff]; exact Or.inl hel
    simp [poll_playback, hpl, derivationPhase_open st inp ho, derivationCore,
          hpl2, hgi, hle, hne]
  have steadyStored : ∀ (cid : String) (tc : Int) (inp' : PollInputs),
      cid ≠ "" → hasActive inp'.players = true →
      (∀ it', inp'.getItem = some it' → deriveItemId it' = cid) →
      (poll_playback (⟨some cid, tc⟩ : PollerState) inp').2.1.item_id = some cid
      ∧ (poll_playback (⟨some cid, tc⟩ : PollerState) inp').2.1.item_type
          = some "episode" := by
    intro cid tc inp' hcne hp' hcomp
    obtain ⟨a', l', hpl'⟩ := (hasActive_iff _).mp hp'
    by_cases ho' : throttleOpen ⟨some cid, tc⟩ inp' = true
    · have hop' := derivationPhase_open (⟨some cid, tc⟩ : PollerState) inp' ho'
      rcases hp2' : inp'.players2 with _ | l2'
      · constructor <;>
          simp [poll_playback, hpl', hop', derivationCore, hp2',
                steadyResponse, reportedItemId, hcne]
      · rcases l2' with _ | ⟨b', l2''⟩
        · constructor <;>
            simp [poll_playback, hpl', hop', derivationCore, hp2',
                  steadyResponse, reportedItemId, hcne]
        · rcases hgi' : inp'.getItem with _ | it'
          · constructor <;>
              simp [poll_playback, hpl', hop', derivationCore, hp2', hgi',
                    steadyResponse, reportedItemId, hcne]
          · have hceq : deriveItemId it' = cid := hcomp it' hgi'
            constructor <;>
              simp [poll_playback, hpl', hop', derivationCore, hp2', hgi',
                    hceq, steadyResponse, reportedItemId, hcne]
    · have ho'' : throttleOpen ⟨some cid, tc⟩ inp' = false := by
        cases h : throttleOpen ⟨some cid, tc⟩ inp'
        · rfl
        · exact absurd h ho'
      constructor <;>
        simp [poll_playback, hpl', derivationPhase_closed _ inp' ho'',
              steadyResponse, reportedItemId, hcne]
  refine ⟨?_, ?_, ?_, ?_⟩
  · intro st inp hp hchg
    obtain ⟨a, l, hpl⟩ := (hasActive_iff _).mp hp
    by_cases ho : throttleOpen st inp = true
    · have hop := derivationPhase_open st inp ho
      rcases hp2 : inp.players2 with _ | l2
      · exact absurd (by simp [poll_playback, hpl, hop, derivationCore, hp2])
          hchg
      · rcases l2 with _ | ⟨b, l2'⟩
        · exact absurd (by simp [poll_playback, hpl, hop, derivationCore, hp2])
            hchg
        · rcases hgi : inp.getItem with _ | it
          · exact absurd
              (by simp [poll_playback, hpl, hop, derivationCore, hp2, hgi])
              hchg
          · rcases hle : st.last_known_episode with _ | prev
            · refine ⟨it, rfl, ?_, by simp⟩
              simp [poll_playback, hpl, hop, derivationCore, hp2, hgi, hle]
            · by_cases hne : deriveItemId it ≠ prev
              · refine ⟨it, rfl, ?_, ?_⟩
                · simp [poll_playback, hpl, hop, derivationCore, hp2, hgi,
                        hle, hne]
                · intro hh
                  exact hne (Option.some.inj hh).symm
              · rw [hle] at hchg
                exact absurd
                  (by simp [poll_playback, hpl, hop, derivationCore, hp2, hgi,
                        hle, hne])
                  hchg
    · have ho' : throttleOpen st inp = false := by
        cases h : throttleOpen st inp
        · rfl
        · exact absurd h ho
      exact absurd
        (by simp [poll_playback, hpl, derivationPhase_closed st inp ho']) hchg
  · intro st inp hp hgi
    obtain ⟨a, l, hpl⟩ := (hasActive_iff _).mp hp
    by_cases ho : throttleOpen st inp = true
    · have hop := derivationPhase_open st inp ho
      rcases hp2 : inp.players2 with _ | l2
      · simp [poll_playback, hpl, hop, derivationCore, hp2]
      · rcases l2 with _ | ⟨b, l2'⟩
        · simp [poll_playback, hpl, hop, derivationCore, hp2]
        · simp [poll_playback, hpl, hop, derivationCore, hp2, hgi]
    · have ho' : throttleOpen st inp = false := by
        cases h : throttleOpen st inp
        · rfl
        · exact absurd h ho
      simp [poll_playback, hpl, derivationPhase_closed st inp ho']
  · intro st inp it prev hp hp2 hgi hle hel hne
    rw [stateChange st inp it prev hp hp2 hgi hle hel hne]
    exact ⟨rfl, rfl, rfl⟩
  · intro st inp inp' it prev hp hp2 hgi hle hel hne hp' hcomp
    rw [stateChange st inp it prev hp hp2 hgi hle hel hne]
    exact steadyStored (deriveItemId it) inp.now inp'
      (deriveItemId_ne_empty it) hp' hcomp

/-- Concrete state for the C1 witness: tracking `episode_1`. -/
def c1St : PollerState := ⟨some "episode_1", 0⟩

/-- Concrete inputs for the C1 witness: the gate is open and
`Player.GetItem` confirms a different episode. -/
def c1Inp : PollInputs :=
  ⟨some [1], some [1], some ⟨"episode", some 2, none⟩, some 1, none, 20⟩

/-- Witness for C1: the change poll emits the sentinel once and stores
the new real identity. -/
theorem pollPlayback_identity_stability_witness :
    (poll_playback c1St c1Inp).2.1.item_id = some "item_changed_20"
    ∧ (poll_playback c1St c1Inp).2.1.item_type = some "item_change"
    ∧ (poll_playback c1St c1Inp).1.last_known_episode = some "episode_2" := by
  have h := pollPlayback_identity_stability.2.2.1 c1St c1Inp
    ⟨"episode", some 2, none⟩ "episode_1" (by decide) (by decide) (by decide)
    (by decide) (by decide) (by decide)
  exact ⟨h.1.trans (by decide), h.2.1, h.2.2.trans (by decide)⟩

/-- C4.  An empty active-players result resets the poller: the stored
identity and the last-check timestamp are cleared and the idle body
`{"playing": False}` is returned; and a poll from the reset state with an
active player runs identity re-derivation immediately (the inner
re-query appears in the trace: `Player.GetActivePlayers` twice),
whatever the clock says, because no identity is stored. -/
theorem pollPlayback_idle_reset :
    (∀ st inp, inp.players = some [] →
      poll_playback st inp
        = (⟨none, 0⟩, notPlayingResponse, ["Player.GetActivePlayers"]))
    ∧ (∀ inp', hasActive inp'.players = true →
        ((poll_playback (⟨none, 0⟩ : PollerState) inp').2.2.count
          "Player.GetActivePlayers") = 2) := by
  constructor
  · intro st inp h
    simp [poll_playback, h]
  · intro inp' hp'
    obtain ⟨a, l, hpl⟩ := (hasActive_iff _).mp hp'
    have ho : throttleOpen ⟨none, 0⟩ inp' = true := by
      rw [throttleOpen_iff]; exact Or.inr rfl
    have hop := derivationPhase_open (⟨none, 0⟩ : PollerState) inp' ho
    rcases hp2 : inp'.players2 with _ | l2
    · have htr : (poll_playback (⟨none, 0⟩ : PollerState) inp').2.2
          = ["Player.GetActivePlayers", "Player.GetActivePlayers",
             "Player.GetProperties", "XBMC.GetInfoLabels"] := by
        simp [poll_playback, hpl, hop, derivationCore, hp2]
      rw [htr]; decide
    · rcases l2 with _ | ⟨b, l2'⟩
      · have htr : (poll_playback (⟨none, 0⟩ : PollerState) inp').2.2
            = ["Player.GetActivePlayers", "Player.GetActivePlayers",
               "Player.GetProperties", "XBMC.GetInfoLabels"] := by
          simp [poll_playback, hpl, hop, derivationCore, hp2]
        rw [htr]; decide
      · rcases hgi : inp'.getItem with _ | it
        · have htr : (poll_playback (⟨none, 0⟩ : PollerState) inp').2.2
              = ["Player.GetActivePlayers", "Player.GetActivePlayers",
                 "Player.GetItem", "Player.GetProperties",
                 "XBMC.GetInfoLabels"] := by
            simp [poll_playback, hpl, hop, derivationCore, hp2, hgi]
          rw [htr]; decide
        · have htr : (poll_playback (⟨none, 0⟩ : PollerState) inp').2.2
              = ["Player.GetActivePlayers", "Player.GetActivePlayers",
                 "Player.GetItem", "Player.GetProperties",
                 "XBMC.GetInfoLabels"] := by
            simp [poll_playback, hpl, hop, derivationCore, hp2, hgi]
          rw [htr]; decide

/-- Witness for C4 at concrete inputs. -/
theorem pollPlayback_idle_reset_witness :
    poll_playback (⟨some "movie_3", 40⟩ : PollerState)
        (⟨some [], none, none, none, none, 41⟩ : PollInputs)
      = (⟨none, 0⟩, notPlayingResponse, ["Player.GetActivePlayers"])
    ∧ ((poll_playback (⟨none, 0⟩ : PollerState)
          (⟨some [1], some [1], some ⟨"movie", some 3, none⟩, some 1, none,
            42⟩ : PollInputs)).2.2.count "Player.GetActivePlayers") = 2 :=
  ⟨pollPlayback_idle_reset.1 ⟨some "movie_3", 40⟩ _ rfl,
   pollPlayback_idle_reset.2 _ (by decide)⟩

/-- Concrete state for the C3 counterexample: an item identity is stored
(an item was being tracked as playing). -/
def c3St : PollerState := ⟨some "episode_42", 50⟩

/-- Concrete inputs for the C3 counterexample: the active-players RPC
fails (transport/timeout/HTTP error, so `kodi_rpc` returns `None`). -/
def c3Inp : PollInputs := ⟨none, none, none, none, none, 60⟩

/-- Counterexample to C3.  On an upstream communication failure the
endpoint does not degrade to an "unknown" result: it reports
`playing: false` with no error marker — byte-for-byte the idle body —
and even clears the stored identity, although an item was being tracked.
This is a false negative about playback state. -/
theorem pollPlayback_upstream_failure_counterexample :
    (poll_playback c3St c3Inp).2.1.playing = false
    ∧ (poll_playback c3St c3Inp).2.1.error = false
    ∧ (poll_playback c3St c3Inp).2.1 = notPlayingResponse
    ∧ (poll_playback c3St c3Inp).1.last_known_episode = none := by
  refine ⟨rfl, rfl, rfl, rfl⟩

/-- Amended C3.  `kodi_rpc` returns a uniform `None` instead of throwing,
but `poll_playback` then takes the same branch as "no active players":
any failure of the initial active-players RPC yields exactly the idle
`{"playing": False}` body (no error indication) and resets the stored
identity and timestamp.  Upstream failure therefore degrades to the
not-playing response, not to an "unknown" one. -/
theorem pollPlayback_upstream_failure_reports_not_playing
    (st : PollerState) (inp : PollInputs) (h : inp.players = none) :
    poll_playback st inp
      = (⟨none, 0⟩, notPlayingResponse, ["Player.GetActivePlayers"]) := by
  simp [poll_playback, h]

/-- Witness for the amended C3 at concrete inputs. -/
theorem pollPlayback_upstream_failure_reports_not_playing_witness :
    poll_playback (⟨some "song_9", 10⟩ : PollerState)
        (⟨none, none, none, none, none, 11⟩ : PollInputs)
      = (⟨none, 0⟩, notPlayingResponse, ["Player.GetActivePlayers"]) :=
  pollPlayback_upstream_failure_reports_not_playing ⟨some "song_9", 10⟩ _ rfl

/-- C10.  Every `playing: true` body carries one of exactly two literal
`item_type` strings: `item_change` in the synthetic change-signal
response (whose `item_id` is the `item_changed_<timestamp>` sentinel) and
`episode` in every other response — never `movie` or `song`, whatever
kind of identity is stored. -/
theorem pollPlayback_item_type_literal :
    (∀ st inp, (poll_playback st inp).2.1.playing = true →
      (poll_playback st inp).2.1.item_type = some "item_change"
      ∨ (poll_playback st inp).2.1.item_type = some "episode")
    ∧ (∀ st inp, (poll_playback st inp).2.1.item_type = some "item_change" →
        (poll_playback st inp).2.1.item_id
          = some ("item_changed_" ++ toString inp.now)) := by
  have shape : ∀ st inp,
      (poll_playback st inp).2.1 = notPlayingResponse
      ∨ (poll_playback st inp).2.1 = itemChangedResponse inp.now
      ∨ (poll_playback st inp).2.1.item_type = some "episode" := by
    intro st inp
    rcases hpl : inp.players with _ | l
    · left; simp [poll_playback, hpl]
    · rcases l with _ | ⟨a, l'⟩
      · left; simp [poll_playback, hpl]
      · by_cases ho : throttleOpen st inp = true
        · have hop := derivationPhase_open st inp ho
          rcases hp2 : inp.players2 with _ | l2
          · right; right
            simp [poll_playback, hpl, hop, derivationCore, hp2, steadyResponse]
          · rcases l2 with _ | ⟨b, l2'⟩
            · right; right
              simp [poll_playback, hpl, hop, derivationCore, hp2,
                    steadyResponse]
            · rcases hgi : inp.getItem with _ | it
              · right; right
                simp [poll_playback, hpl, hop, derivationCore, hp2, hgi,
                      steadyResponse]
              · rcases hle : st.last_known_episode with _ | prev
                · right; right
                  simp [poll_playback, hpl, hop, derivationCore, hp2, hgi,
                        hle, steadyResponse]
                · by_cases hne : deriveItemId it ≠ prev
                  · right; left
                    simp [poll_playback, hpl, hop, derivationCore, hp2, hgi,
                          hle, hne]
                  · right; right
                    simp [poll_playback, hpl, hop, derivationCore, hp2, hgi,
                          hle, hne, steadyResponse]
        · have ho' : throttleOpen st inp = false := by
            cases h : throttleOpen st inp
            · rfl
            · exact absurd h ho
          right; right
          simp [poll_playback, hpl, derivationPhase_closed st inp ho',
                steadyResponse]
  constructor
  · intro st inp hplay
    rcases shape st inp with h | h | h
    · rw [h] at hplay
      exact absurd hplay (by decide)
    · rw [h]
      exact Or.inl rfl
    · exact Or.inr h
  · intro st inp hty
    rcases shape st inp with h | h | h
    · rw [h] at hty
      exact absurd hty (by simp [notPlayingResponse])
    · rw [h]
      rfl
    · rw [h] at hty
      simp at hty

/-- Witness for C10: a steady poll with a stored movie identity still
reports `item_type = episode`. -/
theorem pollPlayback_item_type_literal_witness :
    (poll_playback (⟨some "movie_5", 0⟩ : PollerState)
        (⟨some [1], some [1], some ⟨"movie", some 5, none⟩, some 1, none,
          3⟩ : PollInputs)).2.1.item_type = some "item_change"
    ∨ (poll_playback (⟨some "movie_5", 0⟩ : PollerState)
        (⟨some [1], some [1], some ⟨"movie", some 5, none⟩, some 1, none,
          3⟩ : PollInputs)).2.1.item_type = some "episode" :=
  pollPlayback_item_type_literal.1 _ _ (by decide)

/-!
## Client sync controller
Embeds `checkPlaybackChange` (lines 1752-1826) of `episode_nowplaying.py`
(the same script is emitted by the movie and music templates).  The
JavaScript tracking variables start as `null`; `data.paused` can be
`undefined` (the idle body has no `paused` key), so its last-seen value
is three-valued.  A fetch/transport error runs only the `catch` branch,
which schedules a retry and touches none of the tracking variables, so it
is not part of this state-transition function.
-/

/-- The JavaScript value stored in `lastPausedState`: `null` initially,
then whatever `data.paused` was (a boolean, or `undefined` when the key
was absent).  `!==` is decidable equality on this type. -/
inductive JsPaused where
  | null
  | undefined
  | bool (b : Bool)
deriving DecidableEq, Repr

/-- `data.paused` as seen by the script: `none` when the response body
has no `paused` key. -/
def jsPausedOf : Option Bool → JsPaused
  | some b => .bool b
  | none => .undefined

/-- JavaScript string truthiness for a possibly-missing id:
`null`/`undefined` and the empty string are falsy. -/
def truthyStr : Option String → Bool
  | some s => s ≠ ""
  | none => false

/-- The body of one `/poll_playback` response as the script reads it
(`data.playing`, `data.item_id`, `data.paused`,
`data.current_audio_lang || ''`, `data.current_subtitle_lang || ''`). -/
structure ClientPollData where
  playing : Bool
  item_id : Option String
  paused : Option Bool
  current_audio_lang : Option String
  current_subtitle_lang : Option String
deriving DecidableEq, Repr

/-- The script-level tracking variables (lines 1354, 1542-1545), all
initially `null`. -/
structure ClientState where
  lastPlaybackState : Option Bool
  lastItemId : Option String
  lastPausedState : JsPaused
  lastAudioLang : Option String
  lastSubtitleLang : Option String
deriving DecidableEq, Repr

/-- The navigation the handler may schedule, with its `setTimeout` delay
in milliseconds: the root/idle screen (line 1803, 1500 ms) or the loading
screen (line 1813, 800 ms). -/
inductive ClientNav where
  | toRoot (delayMs : Nat)
  | toLoading (delayMs : Nat)
deriving DecidableEq, Repr

/-- The UI side effects of one handler run: the `updatePlaybackButton`
calls in order, the badge updates, and the scheduled navigation. -/
structure ClientActions where
  buttonUpdates : List JsPaused
  audioBadgeUpdate : Option String
  subtitleBadgeUpdate : Option String
  navigation : Option ClientNav
deriving DecidableEq, Repr

/-- Initial tracking state: every variable `null`. -/
def initialClientState : ClientState := ⟨none, none, .null, none, none⟩

/-- Lines 1770-1773: pause icon swap when `currentPaused !==
lastPausedState`. -/
def pauseStep (st : ClientState) (cp : JsPaused) : ClientState × List JsPaused :=
  if cp ≠ st.lastPausedState then
    ({ st with lastPausedState := cp }, [cp])
  else (st, [])

/-- Lines 1776-1780: audio badge update when the current label is truthy
and differs from the last one. -/
def audioStep (st : ClientState) (a : String) : ClientState × Option String :=
  if a ≠ "" ∧ st.lastAudioLang ≠ some a then
    ({ st with lastAudioLang := some a }, some a)
  else (st, none)

/-- Lines 1782-1786: same for the subtitle badge. -/
def subtitleStep (st : ClientState) (s : String) : ClientState × Option String :=
  if s ≠ "" ∧ st.lastSubtitleLang ≠ some s then
    ({ st with lastSubtitleLang := some s }, some s)
  else (st, none)

/-- Lines 1788-1815: baseline adoption on the first poll, then the
`playing`-transition branch (navigating to the root only on
`true → false`), then the item-change branch (guarded by truthiness of
both ids). -/
def transitionStep (st : ClientState) (currentState : Bool)
    (currentItemId : Option String) (cp : JsPaused) (ca cs : String) :
    ClientState × List JsPaused × Option ClientNav :=
  match st.lastPlaybackState with
  | none =>
      ({ st with lastPlaybackState := some currentState,
                 lastItemId := currentItemId, lastPausedState := cp,
                 lastAudioLang := some ca, lastSubtitleLang := some cs },
       [cp], none)
  | some lastPS =>
      if currentState ≠ lastPS then
        ({ st with lastPlaybackState := some currentState }, [],
         if lastPS = true ∧ currentState = false then
           some (ClientNav.toRoot 1500)
         else none)
      else if currentState = true ∧ truthyStr currentItemId = true
          ∧ truthyStr st.lastItemId = true
          ∧ currentItemId ≠ st.lastItemId then
        (st, [], some (ClientNav.toLoading 800))
      else (st, [], none)

/-- `checkPlaybackChange`'s `.then` handler (lines 1760-1819): the badge
and icon updates, the transition logic, and the unconditional final
re-assignment of `lastPlaybackState`/`lastItemId` (lines 1818-1819). -/
def checkPlaybackChange (st : ClientState) (d : ClientPollData) :
    ClientState × ClientActions :=
  let currentPaused := jsPausedOf d.paused
  let ca := d.current_audio_lang.getD ""
  let cs := d.current_subtitle_lang.getD ""
  let p1 := pauseStep st currentPaused
  let p2 := audioStep p1.1 ca
  let p3 := subtitleStep p2.1 cs
  let p4 := transitionStep p3.1 d.playing d.item_id currentPaused ca cs
  let st5 := { p4.1 with lastPlaybackState := some d.playing,
                         lastItemId := d.item_id }
  (st5,
   { buttonUpdates := p1.2 ++ p4.2.1, audioBadgeUpdate := p2.2,
     subtitleBadgeUpdate := p3.2, navigation := p4.2.2 })

theorem prefixSteps_preserve (st : ClientState) (cp : JsPaused)
    (a s : String) :
    (subtitleStep (audioStep (pauseStep st cp).1 a).1 s).1.lastPlaybackState
        = st.lastPlaybackState
    ∧ (subtitleStep (audioStep (pauseStep st cp).1 a).1 s).1.lastItemId
        = st.lastItemId := by
  unfold pauseStep audioStep subtitleStep
  split <;> split <;> split <;> simp

/-- C6.  After the baseline poll: `playing` going `true → false`
schedules navigation to the root screen after 1500 ms; `false → true`
schedules no navigation; and `playing` staying `true` with a changed,
truthy `item_id` schedules navigation to the loading screen (after
800 ms). -/
theorem clientSync_transition_matrix :
    (∀ st d, st.lastPlaybackState = some true → d.playing = false →
      (checkPlaybackChange st d).2.navigation = some (ClientNav.toRoot 1500))
    ∧ (∀ st d, st.lastPlaybackState = some false → d.playing = true →
        (checkPlaybackChange st d).2.navigation = none)
    ∧ (∀ st d a b, st.lastPlaybackState = some true → d.playing = true →
        st.lastItemId = some a → d.item_id = some b → a ≠ "" → b ≠ "" →
        b ≠ a →
        (checkPlaybackChange st d).2.navigation
          = some (ClientNav.toLoading 800)) := by
  have nav_eq : ∀ st d,
      (checkPlaybackChange st d).2.navigation
        = (transitionStep
            (subtitleStep
              (audioStep (pauseStep st (jsPausedOf d.paused)).1
                (d.current_audio_lang.getD "")).1
              (d.current_subtitle_lang.getD "")).1
            d.playing d.item_id (jsPausedOf d.paused)
            (d.current_audio_lang.getD "") (d.current_subtitle_lang.getD "")).2.2 :=
    fun st d => rfl
  refine ⟨?_, ?_, ?_⟩
  · intro st d hlast hplay
    rw [nav_eq]
    obtain ⟨hps, _⟩ := prefixSteps_preserve st (jsPausedOf d.paused)
      (d.current_audio_lang.getD "") (d.current_subtitle_lang.getD "")
    rw [transitionStep, hps, hlast]
    simp [hplay]
  · intro st d hlast hplay
    rw [nav_eq]
    obtain ⟨hps, _⟩ := prefixSteps_preserve st (jsPausedOf d.paused)
      (d.current_audio_lang.getD "") (d.current_subtitle_lang.getD "")
    rw [transitionStep, hps, hlast]
    simp [hplay]
  · intro st d a b hlast hplay hlid hcid ha hb hne
    rw [nav_eq]
    obtain ⟨hps, hli⟩ := prefixSteps_preserve st (jsPausedOf d.paused)
      (d.current_audio_lang.getD "") (d.current_subtitle_lang.getD "")
    rw [transitionStep, hps, hlast, hli]
    simp [hplay, hcid, hlid, truthyStr, ha, hb, hne]

/-- Witness for C6: a `true → false` poll at a concrete state schedules
the 1500 ms root navigation. -/
theorem clientSync_transition_matrix_witness :
    (checkPlaybackChange
        (⟨some true, some "episode_3", .bool false, some "ENG", none⟩ :
          ClientState)
        (⟨false, none, none, none, none⟩ : ClientPollData)).2.navigation
      = some (ClientNav.toRoot 1500) :=
  clientSync_transition_matrix.1 _ _ rfl rfl

/-!
## Keyed conditional-insert folds
Both download loops of the artwork resolver walk a fixed list, compute an
outcome for the current element alone, and insert it under a key
determined by that element when the outcome is a success.  The lemma
below isolates why one element's failure cannot affect another's entry.
-/

/-- A loop that, for each element of `l` in order, inserts `out x` (when
present) under `key x`. -/
def condInsertFold {α : Type} (key : α → String) (out : α → Option String)
    (l : List α) (init : Dict) : Dict :=
  l.foldl
    (fun acc x =>
      match out x with
      | some v => dinsert acc (key x) v
      | none => acc) init

theorem condInsertFold_cons {α : Type} (key : α → String)
    (out : α → Option String) (x : α) (xs : List α) (init : Dict) :
    condInsertFold key out (x :: xs) init
      = condInsertFold key out xs
          (match out x with
           | some v => dinsert init (key x) v
           | none => init) := rfl

theorem dlookup_condInsertFold_untouched {α : Type} (key : α → String)
    (out : α → Option String) (l : List α) (init : Dict) (K : String)
    (h : ∀ y ∈ l, key y ≠ K) :
    dlookup (condInsertFold key out l init) K = dlookup init K := by
  induction l generalizing init with
  | nil => rfl
  | cons x xs ih =>
    have hx : key x ≠ K := h x (List.mem_cons_self _ _)
    have hxs : ∀ y ∈ xs, key y ≠ K := fun y hy =>
      h y (List.mem_cons_of_mem _ hy)
    rw [condInsertFold_cons, ih _ hxs]
    cases hout : out x with
    | none => rfl
    | some v => exact dlookup_dinsert_ne init (key x) v K (Ne.symm hx)

theorem dlookup_condInsertFold {α : Type} (key : α → String)
    (out : α → Option String) (l : List α) (init : Dict) (x : α)
    (hx : x ∈ l) (hnd : l.Nodup)
    (hinj : ∀ y ∈ l, key y = key x → y = x) :
    dlookup (condInsertFold key out l init) (key x)
      = ((out x).orElse fun _ => dlookup init (key x)) := by
  revert hx hnd hinj
  induction l generalizing init with
  | nil => intro hx _ _; cases hx
  | cons a xs ih =>
    intro hx hnd hinj
    rw [condInsertFold_cons]
    rcases List.mem_cons.mp hx with hax | hxs
    · subst hax
      have hnotin : x ∉ xs := (List.nodup_cons.mp hnd).1
      have hkeys : ∀ y ∈ xs, key y ≠ key x := by
        intro y hy hk
        exact hnotin (hinj y (List.mem_cons_of_mem _ hy) hk ▸ hy)
      rw [dlookup_condInsertFold_untouched key out xs _ _ hkeys]
      cases hout : out x with
      | none => simp [hout]
      | some v => simp [hout, dlookup_dinsert_self]
    · have hax : a ≠ x := by
        intro hh
        subst hh
        exact (List.nodup_cons.mp hnd).1 hxs
      have hka : key a ≠ key x := fun hk =>
        hax (hinj a (List.mem_cons_self _ _) hk)
      have hstep :
          dlookup
            (match out a with
             | some v => dinsert init (key a) v
             | none => init) (key x)
            = dlookup init (key x) := by
        cases hout : out a with
        | none => rfl
        | some v => exact dlookup_dinsert_ne init (key a) v (key x) (Ne.symm hka)
      rw [ih _ hxs (List.nodup_cons.mp hnd).2
          (fun y hy hk => hinj y (List.mem_cons_of_mem _ hy) hk), hstep]

theorem condInsertFold_all_none {α : Type} (key : α → String)
    (out : α → Option String) (l : List α) (init : Dict)
    (h : ∀ x ∈ l, out x = none) :
    condInsertFold key out l init = init := by
  induction l generalizing init with
  | nil => rfl
  | cons a xs ih =>
    rw [condInsertFold_cons, h a (List.mem_cons_self _ _)]
    exact ih _ (fun x hx => h x (List.mem_cons_of_mem _ hx))

/-!
## Per-art-type resolution and download loop
Embeds the loop over `ART_TYPES` of `prepare_and_download_art`
(lines 1335-1700 of `kodi-nowplaying.py`).  The RPC
(`Files.PrepareDownload`) and HTTP (`requests.get`) effects are oracle
functions of the requested path/URL; the deterministic 8-level
fallback-path enumeration (lines 1383-1495 and 1557-1668, pure string
assembly from the item's file path) is likewise supplied as an
environment function, because the claims under study quantify over it.
String helpers are written over `List Char` so that they evaluate by
kernel reduction.
-/

/-- `str.startswith` (by code points). -/
def pyStartsWith (s p : String) : Bool := p.data.isPrefixOf s.data

/-- `str.endswith` (by code points). -/
def pyEndsWith (s p : String) : Bool := p.data.isSuffixOf s.data

/-- The value of a hex digit, as `urllib.parse.unquote` accepts it. -/
def hexVal (c : Char) : Option Nat :=
  if '0' ≤ c ∧ c ≤ '9' then some (c.toNat - 48)
  else if 'a' ≤ c ∧ c ≤ 'f' then some (c.toNat - 87)
  else if 'A' ≤ c ∧ c ≤ 'F' then some (c.toNat - 55)
  else none

/-- `urllib.parse.unquote` on the single-byte (ASCII) escape sequences
that Kodi art paths use: `%XY` with valid hex becomes one character,
anything else is kept literally. -/
def percentDecodeAux : List Char → List Char
  | [] => []
  | '%' :: a :: b :: rest =>
      match hexVal a, hexVal b with
      | some x, some y => Char.ofNat (16 * x + y) :: percentDecodeAux rest
      | _, _ => '%' :: percentDecodeAux (a :: b :: rest)
  | c :: rest => c :: percentDecodeAux rest

/-- String-level `urllib.parse.unquote` (ASCII sequences). -/
def percentDecode (s : String) : String := String.mk (percentDecodeAux s.data)

/-- One hex digit, uppercase, as `urllib.parse.quote` emits. -/
def hexDigitChar (n : Nat) : Char :=
  if n < 10 then Char.ofNat (48 + n) else Char.ofNat (55 + n)

/-- The bytes `urllib.parse.quote` leaves unescaped with `safe=''`:
ASCII letters, digits, and `_.-~`. -/
def isUnreservedByte (b : UInt8) : Bool :=
  decide ((48 ≤ b.toNat ∧ b.toNat ≤ 57) ∨ (65 ≤ b.toNat ∧ b.toNat ≤ 90)
    ∨ (97 ≤ b.toNat ∧ b.toNat ≤ 122) ∨ b.toNat = 95 ∨ b.toNat = 46
    ∨ b.toNat = 45 ∨ b.toNat = 126)

/-- `urllib.parse.quote(s, safe='')` over the UTF-8 bytes of `s`. -/
def pquote (s : String) : String :=
  String.mk
    (s.toUTF8.toList.foldr
      (fun b acc =>
        if isUnreservedByte b then Char.ofNat b.toNat :: acc
        else '%' :: hexDigitChar (b.toNat / 16)
          :: hexDigitChar (b.toNat % 16) :: acc) [])

/-- `os.path.basename`: everything after the last `/`. -/
def basename (p : String) : String :=
  String.mk ((p.data.splitOn '/').getLastD p.data)

/-- `ART_TYPES` (line 80). -/
def ART_TYPES : List String :=
  ["poster", "front", "back", "fanart", "clearlogo", "clearart", "discart",
   "cdart", "banner", "season.poster", "thumbnail"]

/-- The art types eligible for path-walk fallbacks (lines 1372 and
1545). -/
def fallbackTypes : List String :=
  ["fanart", "clearlogo", "clearart", "banner", "front", "back", "discart"]

/-- The `result.details` of a `Files.PrepareDownload` response: `token`
and `path`, each possibly absent. -/
structure PrepDetails where
  token : Option String
  path : Option String
deriving DecidableEq, Repr

/-- The observable outcome of a `requests` call:
`raise_for_status` turns a 4xx/5xx status into an exception whose string
contains the code. -/
inductive FetchResult where
  | ok
  | httpError (code : Nat)
  | transportError
deriving DecidableEq, Repr

/-- The resolver's environment: the active server's base URL, the
`Files.PrepareDownload` oracle (`none` for a failed RPC or an
error/empty response), the HTTP GET oracle, and the per-art-type
fallback candidate paths produced by the 8-level directory walk. -/
structure ArtEnv where
  host : String
  prep : String → Option PrepDetails
  fetch : String → FetchResult
  fallbackCandidates : String → List String

/-- Primary URL construction (lines 1352-1367): call
`Files.PrepareDownload` on the cleaned path and build a `/vfs/` URL from
a truthy token, else a host-relative URL from a truthy path. -/
def primaryImageUrl (env : ArtEnv) (raw : String) : Option String :=
  let response := if raw ≠ "" then env.prep raw else none
  match response with
  | some d =>
      if truthyStr d.token = true ∧ raw ≠ "" then
        some (env.host ++ "/vfs/" ++ d.token.getD "" ++ "/"
          ++ pquote (basename raw))
      else if truthyStr d.path = true then
        some (env.host ++ "/" ++ d.path.getD "")
      else none
  | none => none

/-- The pre-download fallback search (lines 1498-1517): walk the
candidate list and accept the first whose `Files.PrepareDownload` yields
a truthy token or path; every per-candidate failure is swallowed and the
walk continues. -/
def fallbackSearchUrl (env : ArtEnv) : List String → Option String
  | [] => none
  | c :: rest =>
      match env.prep c with
      | some d =>
          if truthyStr d.token = true then
            some (env.host ++ "/vfs/" ++ d.token.getD "" ++ "/"
              ++ pquote (basename c))
          else if truthyStr d.path = true then
            some (env.host ++ "/" ++ d.path.getD "")
          else fallbackSearchUrl env rest
      | none => fallbackSearchUrl env rest

/-- The post-401 fallback loop (lines 1670-1698): walk the candidates,
build a URL from the prepared token/path, download it, register on the
first success and stop; every per-candidate failure (including the
token-and-path-less iteration, which raises `NameError` or re-fetches the
stale previous URL with the same deterministic result) continues the
walk. -/
def retryDownload401 (env : ArtEnv) : List String → Bool
  | [] => false
  | c :: rest =>
      match env.prep c with
      | some d =>
          let url? :=
            if truthyStr d.token = true then
              some (env.host ++ "/vfs/" ++ d.token.getD "" ++ "/"
                ++ pquote (basename c))
            else if truthyStr d.path = true then
              some (env.host ++ "/" ++ d.path.getD "")
            else none
          match url? with
          | some u =>
              match env.fetch u with
              | .ok => true
              | _ => retryDownload401 env rest
          | none => retryDownload401 env rest
      | none => retryDownload401 env rest

/-- One art type's full pipeline (lines 1336-1698), given the raw value
from the merged art map: skip a falsy value; strip the `image://`
wrapper, percent-decoding, and one trailing slash; use `http(s)` URLs
directly; otherwise prepare a download, falling back to the path walk for
the artist/album-adjacent types on an `nfs://` item; download the URL,
retrying the path walk once on a 401.  Returns the session-scoped cache
filename exactly when the art type was downloaded. -/
def typeOutcome (env : ArtEnv) (itemFile sessionId t raw0 : String) :
    Option String :=
  if raw0 = "" then none
  else
    let raw1 :=
      if pyStartsWith raw0 "image://" = true then
        percentDecode (String.mk (raw0.data.drop 8))
      else raw0
    let raw :=
      if pyEndsWith raw1 "/" = true then String.mk raw1.data.dropLast else raw1
    let url? :=
      if pyStartsWith raw "https://" = true ∨ pyStartsWith raw "http://" = true
      then some raw
      else
        match primaryImageUrl env raw with
        | some u => some u
        | none =>
            if t ∈ fallbackTypes ∧ pyStartsWith itemFile "nfs://" = true then
              fallbackSearchUrl env (env.fallbackCandidates t)
            else none
    match url? with
    | none => none
    | some url =>
        match env.fetch url with
        | .ok => some (sessionId ++ "_" ++ t ++ ".jpg")
        | .httpError 401 =>
            if t ∈ fallbackTypes ∧ pyStartsWith itemFile "nfs://" = true then
              if retryDownload401 env (env.fallbackCandidates t) then
                some (sessionId ++ "_" ++ t ++ ".jpg")
              else none
            else none
        | _ => none

/-- The loop body's outcome for an art type, `none` when the merged map
has no entry (`if not raw_path: continue`). -/
def artTypeResult (env : ArtEnv) (itemFile sessionId : String)
    (artMap : Dict) (t : String) : Option String :=
  match dlookup artMap t with
  | some raw0 => typeOutcome env itemFile sessionId t raw0
  | none => none

/-- The `for art_type in ART_TYPES` loop (lines 1335-1700): each type is
processed independently and registered in `downloaded` exactly when its
pipeline succeeded. -/
def prepare_and_download_art_types (env : ArtEnv) (itemFile : String)
    (artMap : Dict) (sessionId : String) : Dict :=
  ART_TYPES.foldl
    (fun acc t =>
      match artTypeResult env itemFile sessionId artMap t with
      | some fn => dinsert acc t fn
      | none => acc) []

/-- C7.  Artwork resolution is total and failures stay local: the result
map's entry for each art type equals that type's own pipeline outcome
(so one type's failure, which yields `none`, is omitted without
affecting any other type), and when every type's pipeline fails the
result is the empty map. -/
theorem artDownload_failures_nonfatal :
    (∀ env itemFile artMap sessionId t, t ∈ ART_TYPES →
      dlookup (prepare_and_download_art_types env itemFile artMap sessionId) t
        = artTypeResult env itemFile sessionId artMap t)
    ∧ (∀ env itemFile artMap sessionId,
        (∀ t ∈ ART_TYPES, artTypeResult env itemFile sessionId artMap t = none) →
        prepare_and_download_art_types env itemFile artMap sessionId = []) := by
  constructor
  · intro env itemFile artMap sessionId t ht
    have heq : prepare_and_download_art_types env itemFile artMap sessionId
        = condInsertFold (fun t => t)
            (artTypeResult env itemFile sessionId artMap) ART_TYPES [] := rfl
    rw [heq,
      dlookup_condInsertFold (fun t => t)
        (artTypeResult env itemFile sessionId artMap) ART_TYPES [] t ht
        (by decide) (fun y _ h => h)]
    cases artTypeResult env itemFile sessionId artMap t <;> rfl
  · intro env itemFile artMap sessionId h
    have heq : prepare_and_download_art_types env itemFile artMap sessionId
        = condInsertFold (fun t => t)
            (artTypeResult env itemFile sessionId artMap) ART_TYPES [] := rfl
    rw [heq, condInsertFold_all_none _ _ _ _ h]

/-- Environment for the C7 witness: every RPC fails, every download
fails, no fallback candidates. -/
def c7Env : ArtEnv :=
  ⟨"h", fun _ => none, fun _ => FetchResult.transportError, fun _ => []⟩

/-- Art map for the C7 witness. -/
def c7Art : Dict := [("poster", "p.jpg"), ("fanart", "f.jpg")]

/-- Witness for C7: with every upstream call failing, each entry equals
its own (failed) outcome and the result map is empty. -/
theorem artDownload_failures_nonfatal_witness :
    dlookup (prepare_and_download_art_types c7Env "nfs://srv/m/f.mkv" c7Art
        "sess") "poster"
      = artTypeResult c7Env "nfs://srv/m/f.mkv" "sess" c7Art "poster"
    ∧ prepare_and_download_art_types c7Env "nfs://srv/m/f.mkv" c7Art "sess"
        = [] :=
  ⟨artDownload_failures_nonfatal.1 c7Env "nfs://srv/m/f.mkv" c7Art "sess"
      "poster" (by decide),
   artDownload_failures_nonfatal.2 c7Env "nfs://srv/m/f.mkv" c7Art "sess"
      (by decide)⟩

/-!
## Fanart probe fallback
Embeds the `for i in range(1, 10)` probing loop (lines 1290-1328 of
`kodi-nowplaying.py`) that runs when the directory listing raised: each
index gets its own `Files.PrepareDownload` call and `HEAD` existence
test, every per-index failure is swallowed, and a hit registers
`fanart<i>` in the variants map.
-/

/-- One index's probe oracle: the `Files.PrepareDownload` response and
the status of the `HEAD` request that follows (absent on a transport
exception). -/
structure FanartProbe where
  prep : Option PrepDetails
  headStatus : Option Nat
deriving DecidableEq, Repr

/-- Whether the probe registers the index: a prepared truthy token (or,
failing that, truthy path) whose `HEAD` test returned status 200. -/
def probeRegisters (p : FanartProbe) : Bool :=
  match p.prep with
  | some d =>
      if truthyStr d.token = true then p.headStatus == some 200
      else if truthyStr d.path = true then p.headStatus == some 200
      else false
  | none => false

/-- The `fanart<i>` variants key. -/
def fanartKey (i : Nat) : String := "fanart" ++ toString i

/-- The probed path `{media_dir}/fanart{i}.jpg` (line 1294). -/
def fanartProbePath (mediaDir : String) (i : Nat) : String :=
  mediaDir ++ "/fanart" ++ toString i ++ ".jpg"

/-- The probing loop: fold indices 1 through 9 over the current variants
map, registering each hit; the second component records every index the
loop visited, in order. -/
def fanartFallbackScan (variants : Dict) (mediaDir : String)
    (probe : Nat → FanartProbe) : Dict × List Nat :=
  (List.range' 1 9).foldl
    (fun acc i =>
      if probeRegisters (probe i) = true then
        (dinsert acc.1 (fanartKey i) (fanartProbePath mediaDir i),
         acc.2 ++ [i])
      else (acc.1, acc.2 ++ [i]))
    (variants, [])

theorem fanartScan_snd_aux (mediaDir : String) (probe : Nat → FanartProbe) :
    ∀ (l : List Nat) (dI : Dict) (tI : List Nat),
      ((l.foldl
        (fun acc i =>
          if probeRegisters (probe i) = true then
            (dinsert acc.1 (fanartKey i) (fanartProbePath mediaDir i),
             acc.2 ++ [i])
          else (acc.1, acc.2 ++ [i]))
        (dI, tI)).2) = tI ++ l := by
  intro l
  induction l with
  | nil => intro dI tI; simp
  | cons a xs ih =>
    intro dI tI
    rw [List.foldl_cons]
    by_cases hr : probeRegisters (probe a) = true
    · simp only [hr, if_pos]
      rw [ih]
      simp
    · simp only [hr, if_neg, Bool.false_eq_true, not_false_iff]
      rw [ih]
      simp

theorem fanartScan_fst_aux (mediaDir : String) (probe : Nat → FanartProbe) :
    ∀ (l : List Nat) (dI : Dict) (tI : List Nat),
      ((l.foldl
        (fun acc i =>
          if probeRegisters (probe i) = true then
            (dinsert acc.1 (fanartKey i) (fanartProbePath mediaDir i),
             acc.2 ++ [i])
          else (acc.1, acc.2 ++ [i]))
        (dI, tI)).1)
        = condInsertFold fanartKey
            (fun i =>
              if probeRegisters (probe i) = true
              then some (fanartProbePath mediaDir i) else none)
            l dI := by
  intro l
  induction l with
  | nil => intro dI tI; rfl
  | cons a xs ih =>
    intro dI tI
    rw [List.foldl_cons, condInsertFold_cons]
    by_cases hr : probeRegisters (probe a) = true
    · simp only [hr, if_pos]
      exact ih _ _
    · simp only [hr, if_neg, Bool.false_eq_true, not_false_iff]
      exact ih _ _

/-- C8.  The fallback probe visits every index 1 through 9 (the visit
trace is always `[1, ..., 9]` — gaps do not stop the loop), and the
registration of `fanart<j>` depends only on index `j`'s own probe: a hit
is registered with the probed path and a miss leaves the pre-existing
entry, whatever happened at every other index. -/
theorem fanartProbe_independence :
    (∀ variants mediaDir probe,
      (fanartFallbackScan variants mediaDir probe).2
        = [1, 2, 3, 4, 5, 6, 7, 8, 9])
    ∧ (∀ variants mediaDir probe j, 1 ≤ j → j ≤ 9 →
        dlookup (fanartFallbackScan variants mediaDir probe).1 (fanartKey j)
          = if probeRegisters (probe j) = true
            then some (fanartProbePath mediaDir j)
            else dlookup variants (fanartKey j)) := by
  constructor
  · intro variants mediaDir probe
    rw [fanartFallbackScan, fanartScan_snd_aux]
    rfl
  · intro variants mediaDir probe j h1 h9
    rw [fanartFallbackScan, fanartScan_fst_aux]
    interval_cases j <;>
      (rw [dlookup_condInsertFold _ _ _ _ _ (by decide) (by decide)
          (by decide)]
       cases hr : probeRegisters (probe _) <;> simp [hr])

/-- Probe oracle for the C8 witness: only index 3 exists (indices 1 and
2 are a gap). -/
def c8Probe : Nat → FanartProbe := fun i =>
  if i = 3 then ⟨some ⟨some "tok", none⟩, some 200⟩ else ⟨none, none⟩

/-- Witness for C8: the fanart found after the gap at indices 1-2 is
still registered. -/
theorem fanartProbe_independence_witness :
    dlookup (fanartFallbackScan [] "nfs://srv/show" c8Probe).1 (fanartKey 3)
      = some (fanartProbePath "nfs://srv/show" 3) := by
  have h := fanartProbe_independence.2 [] "nfs://srv/show" c8Probe 3
    (by decide) (by decide)
  rw [h]
  decide
